import Mathlib

/-!
Verification model of the techchat backend realtime core (src/server.js).

The embedding follows the source:
* `authMiddleware` models the socket.io middleware at src/server.js lines
  34-50: it reads the handshake token, verifies it, resolves the decoded id
  against the Users table, and either attaches the user or rejects the
  connection with an authentication error.
* `join_channel` models the handler at lines 56-59: `socket.join(channelId)`
  adds the connection to the room set for that channel id, unconditionally,
  and emits nothing.
* `send_message` models the handler at lines 62-88: it destructures
  `channelId` and `content` from the payload, writes a message record with
  `user_id` taken from `socket.user.id`, re-reads the message joined with the
  sender profile, and broadcasts it to the room; any store failure lands in
  the catch block, which emits a single error event to the sending socket.
  The two store operations that can fail (the create and the follow-up read)
  are modelled by the two Boolean outcome flags of `StoreOps`.
* Rooms are modelled as socket.io models them: a set of connection ids per
  channel id (the adapter keeps a `Set` of socket ids per room, so joining
  twice cannot duplicate an entry, and a disconnecting socket is removed from
  every room it is in as part of teardown, before any later event runs).
* `Step` and `Reachable` give the system semantics: events are only
  dispatched on sockets whose connection was accepted by the middleware, so
  `joinCh` and `send` steps require the connection to be open.
-/

/-- A row of the Users table, with the profile attributes the realtime core
reads (id, username, avatar_color, status). -/
structure UserRec where
  id : String
  username : String
  avatar_color : String
  status : String
deriving DecidableEq, Repr

/-- The decoded JWT payload: the server signs `{ id: user.id }`. -/
structure TokenPayload where
  id : String
deriving DecidableEq, Repr

/-- Outcome of the connection middleware: the connection is accepted with an
attached user, or refused with an error message. -/
inductive AuthResult where
  | ok (user : UserRec)
  | err (msg : String)
deriving DecidableEq, Repr

/-- The socket.io middleware (src/server.js lines 34-50).  `verify` models
`jwt.verify` (`none` means it threw: malformed, bad signature, or expired)
and `findUser` models `Users.findByPk`.  A missing token or a failed verify
yields the generic authentication error; a token whose id resolves to no
user yields the user-not-found error; otherwise the user is attached. -/
def authMiddleware (tok : Option String)
    (verify : String → Option TokenPayload)
    (findUser : String → Option UserRec) : AuthResult :=
  match tok with
  | none => .err "Authentication error"
  | some t =>
    match verify t with
    | none => .err "Authentication error"
    | some decoded =>
      match findUser decoded.id with
      | none => .err "User not found"
      | some user => .ok user

/-- A row of the Messages table: id (assigned by the store), content,
channel id and sender id (the foreign keys added by the associations). -/
structure MessageRec where
  id : String
  content : String
  channel_id : String
  user_id : String
deriving DecidableEq, Repr

/-- The payload broadcast on `receive_message`: the message row joined with
the sender profile (the `include` of the `findByPk` at lines 74-80). -/
structure MessageWithSender where
  msg : MessageRec
  sender : Option UserRec
deriving DecidableEq, Repr

/-- Events emitted to clients: `receive_message` to each room member, and
`error` to the sending socket alone. -/
inductive SEvent where
  | receive_message (dest : Nat) (m : MessageWithSender)
  | error (dest : Nat) (msg : String)
deriving DecidableEq, Repr

/-- The realtime state of the process: the set of accepted (open)
connections, the room membership pairs (connection id, channel id), the
user attached to each open connection at authentication time, the Messages
store, and the log of emitted events. -/
structure SysState where
  openConns : Finset Nat
  subs : Finset (Nat × String)
  users : List (Nat × UserRec)
  store : List MessageRec
  evts : List SEvent

/-- The empty process state at startup. -/
def init : SysState :=
  { openConns := ∅, subs := ∅, users := [], store := [], evts := [] }

/-- The connections currently in the room for a channel id: the point in
time snapshot `io.to(channelId)` targets. -/
def subscribers (st : SysState) (ch : String) : Finset Nat :=
  (st.subs.filter (fun p => p.2 = ch)).image Prod.fst

/-- The `join_channel` handler (src/server.js lines 56-59): `socket.join`
adds the connection to the room for that channel id.  It consults nothing
and emits nothing: there is no existence or membership check. -/
def join_channel (st : SysState) (connId : Nat) (channelId : String) :
    SysState × List SEvent :=
  ({ st with subs := insert (connId, channelId) st.subs }, [])

/-- The client-supplied `send_message` payload.  The handler destructures
only `channelId` and `content`; `client_sender` stands for any extra
client-supplied sender field the payload may carry, which the handler never
reads. -/
structure SendPayload where
  channelId : String
  content : String
  client_sender : Option String
deriving DecidableEq, Repr

/-- Outcomes of the two store operations of the `send_message` handler:
whether `Messages.create` succeeds and whether the follow-up
`Messages.findByPk` succeeds.  `false` means the operation threw. -/
structure StoreOps where
  createOk : Bool
  fetchOk : Bool
deriving DecidableEq, Repr

/-- `io.to(channelId).emit` delivers one copy of the event to every
connection currently in the room (the room is a set, enumerated here in
ascending connection id order). -/
def broadcastTo (st : SysState) (channelId : String) (m : MessageWithSender) :
    List SEvent :=
  ((subscribers st channelId).sort (· ≤ ·)).map (fun c => SEvent.receive_message c m)

/-- The `send_message` handler (src/server.js lines 62-88) for a socket with
open connection `connId` and attached user `u`.  It writes a record with the
payload content, the payload channel id, and `user_id := u.id` (the store
assigns the fresh primary key `nextId`); it then re-reads the record joined
with the sender row of the Users table (`findUser`), and broadcasts the
result to the room.  If either store operation throws, control lands in the
catch block, which emits one `error` event to the sending socket; nothing is
broadcast.  Returns the resulting store and the list of emitted events. -/
def send_message (st : SysState) (connId : Nat) (u : UserRec)
    (findUser : String → Option UserRec)
    (data : SendPayload) (nextId : String) (ops : StoreOps) :
    List MessageRec × List SEvent :=
  if ops.createOk then
    let newMessage : MessageRec :=
      { id := nextId, content := data.content,
        channel_id := data.channelId, user_id := u.id }
    let store1 := st.store ++ [newMessage]
    if ops.fetchOk then
      let messageWithSender : MessageWithSender :=
        { msg := newMessage, sender := findUser newMessage.user_id }
      (store1, broadcastTo st data.channelId messageWithSender)
    else
      (store1, [SEvent.error connId "Message could notqv be sent"])
  else
    (st.store, [SEvent.error connId "Message could notqv be sent"])

/-- Client-visible actions on the realtime core. -/
inductive Act where
  | connect (connId : Nat) (tok : Option String)
  | joinCh (connId : Nat) (channelId : String)
  | send (connId : Nat) (data : SendPayload) (nextId : String) (ops : StoreOps)
  | disconnect (connId : Nat)

/-- One step of the system, parameterised by the token verifier and the
Users table lookup.  A connection becomes open only when the middleware
accepts it; `join_channel` and `send_message` events are dispatched only on
open connections (socket.io registers the handlers inside the connection
callback, which never runs for a refused socket).  On disconnect, socket.io
removes the socket from every room as part of teardown and the socket object
is destroyed, so the connection leaves `openConns`, `subs` and `users`. -/
inductive Step (verify : String → Option TokenPayload)
    (findUser : String → Option UserRec) : Act → SysState → SysState → Prop where
  | connect {st : SysState} {connId : Nat} {tok : Option String} {u : UserRec}
      (h : authMiddleware tok verify findUser = .ok u)
      (hfresh : connId ∉ st.openConns) :
      Step verify findUser (.connect connId tok) st
        { st with openConns := insert connId st.openConns,
                  users := (connId, u) :: st.users }
  | joinCh {st : SysState} {connId : Nat} {ch : String}
      (h : connId ∈ st.openConns) :
      Step verify findUser (.joinCh connId ch) st
        { (join_channel st connId ch).1 with
          evts := st.evts ++ (join_channel st connId ch).2 }
  | send {st : SysState} {connId : Nat} {u : UserRec} {data : SendPayload}
      {nextId : String} {ops : StoreOps}
      (hopen : connId ∈ st.openConns)
      (hu : st.users.lookup connId = some u) :
      Step verify findUser (.send connId data nextId ops) st
        { st with store := (send_message st connId u findUser data nextId ops).1,
                  evts := st.evts ++ (send_message st connId u findUser data nextId ops).2 }
  | disconnect {st : SysState} {connId : Nat}
      (h : connId ∈ st.openConns) :
      Step verify findUser (.disconnect connId) st
        { st with openConns := st.openConns.erase connId,
                  subs := st.subs.filter (fun p => p.1 ≠ connId),
                  users := st.users.filter (fun p => p.1 ≠ connId) }

/-- States reachable from process startup. -/
inductive Reachable (verify : String → Option TokenPayload)
    (findUser : String → Option UserRec) : SysState → Prop where
  | init : Reachable verify findUser init
  | step {st st' : SysState} {a : Act}
      (h : Reachable verify findUser st)
      (hs : Step verify findUser a st st') :
      Reachable verify findUser st'

/-- A concrete user, for witnesses. -/
def u0 : UserRec :=
  { id := "u1", username := "alice", avatar_color := "bg-blue-600", status := "online" }

/-- A concrete token payload, for witnesses. -/
def tp0 : TokenPayload := { id := "u1" }

/-- A concrete verifier accepting the single token "tok", for witnesses. -/
def verify0 : String → Option TokenPayload :=
  fun t => if t = "tok" then some tp0 else none

/-- A concrete Users table holding only `u0`, for witnesses. -/
def findUser0 : String → Option UserRec :=
  fun i => if i = "u1" then some u0 else none

/-- A concrete well-formed send payload, for witnesses. -/
def payload0 : SendPayload :=
  { channelId := "general", content := "hi", client_sender := none }

/-- The suspension-point steps of one run of the `send_message` handler:
`persist` is the awaited `Messages.create`, `fetch` the awaited
`Messages.findByPk`, and `broadcast` the synchronous emit.  The node event
loop may interleave two concurrent handler runs at the await boundaries, so
every interleaving of the two step sequences is a possible execution; the
handler takes no lock and uses no queue. -/
inductive SendStep where
  | persist
  | fetch
  | broadcast
deriving DecidableEq, Repr

/-- Program order of one `send_message` handler run. -/
def sendProgram : List SendStep := [.persist, .fetch, .broadcast]

/-- The steps of task `i` in a trace, in trace order. -/
def proj (t : List (Nat × SendStep)) (i : Nat) : List SendStep :=
  (t.filter (fun p => p.1 = i)).map (fun p => p.2)

/-- A trace is an interleaving of two `send_message` handler runs, called
task 0 and task 1, both targeting the same channel. -/
def interleaving2 (t : List (Nat × SendStep)) : Prop :=
  proj t 0 = sendProgram ∧ proj t 1 = sendProgram ∧
  ∀ p ∈ t, p.1 = 0 ∨ p.1 = 1

/-- `a` occurs strictly before `b` in the trace `t`. -/
def occursBefore (t : List (Nat × SendStep)) (a b : Nat × SendStep) : Prop :=
  t.indexOf a < t.indexOf b

/-- The per-channel ordering property as the spec states it, over the
interleaving semantics: whenever the persist of task 0 completes before the
persist of task 1 begins, the broadcast of task 0 precedes the broadcast of
task 1, so every room member sees the messages in persistence order. -/
def perChannelOrdered : Prop :=
  ∀ t : List (Nat × SendStep), interleaving2 t →
    occursBefore t (0, .persist) (1, .persist) →
    occursBefore t (0, .broadcast) (1, .broadcast)

/-- The interleaving that refutes `perChannelOrdered`: task 1 overtakes
task 0 between the store write and the emit, which the handler permits
because it awaits a store read between the two. -/
def badTrace : List (Nat × SendStep) :=
  [(0, .persist), (1, .persist), (1, .fetch), (1, .broadcast),
   (0, .fetch), (0, .broadcast)]

/-- Helper: one step preserves the cleanliness of non-open connections. -/
theorem step_clean {verify : String → Option TokenPayload}
    {findUser : String → Option UserRec} {a : Act} {st st' : SysState}
    (hs : Step verify findUser a st st')
    (h : ∀ c : Nat, c ∉ st.openConns →
      (∀ ch, (c, ch) ∉ st.subs) ∧ (∀ u, (c, u) ∉ st.users)) :
    ∀ c : Nat, c ∉ st'.openConns →
      (∀ ch, (c, ch) ∉ st'.subs) ∧ (∀ u, (c, u) ∉ st'.users) := by
  cases hs with
  | connect hok hfresh =>
    rename_i connId tok u
    intro c hc
    have hc' : c ∉ insert connId st.openConns := hc
    have hne : c ≠ connId := by
      rintro rfl
      exact hc' (Finset.mem_insert_self c _)
    have hcopen : c ∉ st.openConns := fun hmem => hc' (Finset.mem_insert_of_mem hmem)
    obtain ⟨hsubs, husers⟩ := h c hcopen
    refine ⟨hsubs, fun u' hmem => ?_⟩
    rcases List.mem_cons.mp hmem with heq | htl
    · exact hne (congrArg Prod.fst heq)
    · exact husers u' htl
  | joinCh hopen =>
    rename_i connId ch
    intro c hc
    have hcopen : c ∉ st.openConns := hc
    have hne : c ≠ connId := by
      rintro rfl
      exact hcopen hopen
    obtain ⟨hsubs, husers⟩ := h c hcopen
    refine ⟨fun ch' hmem => ?_, husers⟩
    have hmem' : (c, ch') ∈ insert (connId, ch) st.subs := hmem
    rcases Finset.mem_insert.mp hmem' with heq | htl
    · exact hne (congrArg Prod.fst heq)
    · exact hsubs ch' htl
  | send hopen hu =>
    intro c hc
    have hcopen : c ∉ st.openConns := hc
    exact h c hcopen
  | disconnect hopen =>
    rename_i connId
    intro c hc
    by_cases hceq : c = connId
    · subst hceq
      refine ⟨fun ch hmem => ?_, fun u hmem => ?_⟩
      · exact absurd rfl (Finset.mem_filter.mp hmem).2
      · have := (List.mem_filter.mp hmem).2
        simp at this
    · have hcopen : c ∉ st.openConns := fun hmem =>
        hc (Finset.mem_erase.mpr ⟨hceq, hmem⟩)
      obtain ⟨hsubs, husers⟩ := h c hcopen
      refine ⟨fun ch hmem => ?_, fun u hmem => ?_⟩
      · exact hsubs ch (Finset.mem_filter.mp hmem).1
      · exact husers u (List.mem_filter.mp hmem).1

/-- Helper invariant: in any reachable state, a connection that is not open
has no room memberships and no attached user. -/
theorem closed_conn_clean (verify : String → Option TokenPayload)
    (findUser : String → Option UserRec) (st : SysState)
    (h : Reachable verify findUser st) :
    ∀ c : Nat, c ∉ st.openConns →
      (∀ ch, (c, ch) ∉ st.subs) ∧ (∀ u, (c, u) ∉ st.users) := by
  induction h with
  | init =>
    intro c _
    exact ⟨fun ch => by simp [init], fun u => by simp [init]⟩
  | step hr hs ih =>
    exact step_clean hs ih

/-- Helper: a room broadcast delivers the event once to each room member
and never to anyone else. -/
theorem broadcastTo_count (st : SysState) (ch : String)
    (m : MessageWithSender) (k : Nat) :
    (broadcastTo st ch m).count (SEvent.receive_message k m)
      = if k ∈ subscribers st ch then 1 else 0 := by
  have hinj : Function.Injective (fun c : Nat => SEvent.receive_message c m) := by
    intro a b hab
    injection hab
  unfold broadcastTo
  rw [List.count_map_of_injective _ _ hinj]
  by_cases hk : k ∈ subscribers st ch
  · rw [if_pos hk]
    exact List.count_eq_one_of_mem (Finset.sort_nodup _ _) ((Finset.mem_sort _).mpr hk)
  · rw [if_neg hk]
    exact List.count_eq_zero_of_not_mem (fun hmem => hk ((Finset.mem_sort _).mp hmem))

/-- C1: the `receive_message` broadcast happens only after the store write
succeeds.  When `Messages.create` throws, the handler lands in the catch
block: the store is unchanged (no record exists), the emitted events are
exactly one `error` event to the sending connection, and in particular no
connection (the sender included) receives `receive_message`.  Since the
write outcome is Boolean, this is equivalently: any `receive_message`
emission requires the write to have succeeded. -/
theorem no_broadcast_without_persistence
    (st : SysState) (connId : Nat) (u : UserRec)
    (findUser : String → Option UserRec) (data : SendPayload)
    (nextId : String) (ops : StoreOps) (h : ops.createOk = false) :
    (send_message st connId u findUser data nextId ops).1 = st.store ∧
    (send_message st connId u findUser data nextId ops).2 =
      [SEvent.error connId "Message could notqv be sent"] ∧
    ∀ k m, SEvent.receive_message k m ∉
      (send_message st connId u findUser data nextId ops).2 := by
  refine ⟨?_, ?_, ?_⟩ <;> simp [send_message, h]

/-- Witness for C1 at concrete inputs: the create fails, the store stays
empty and only the sender sees an error. -/
theorem no_broadcast_without_persistence_witness :
    (StoreOps.mk false true).createOk = false ∧
    ((send_message init 0 u0 findUser0 payload0 "m1" (StoreOps.mk false true)).1 = init.store ∧
     (send_message init 0 u0 findUser0 payload0 "m1" (StoreOps.mk false true)).2 =
       [SEvent.error 0 "Message could notqv be sent"] ∧
     ∀ k m, SEvent.receive_message k m ∉
       (send_message init 0 u0 findUser0 payload0 "m1" (StoreOps.mk false true)).2) :=
  ⟨rfl, no_broadcast_without_persistence init 0 u0 findUser0 payload0 "m1"
    (StoreOps.mk false true) rfl⟩

/-- C2 counterexample: the handler performs no validation before the store
write.  With whitespace-only content and a channel id that is in no Channel
Directory (here the empty directory), the write is still attempted and, when
the store accepts it, a message record with that content is created —
contradicting the claim that such sends are rejected before any write and
that no record is created. -/
theorem send_validation_counterexample :
    (∀ c ∈ "   ".toList, c.toNat = 32) ∧
    "general" ∉ (∅ : Finset String) ∧
    (send_message init 0 u0 findUser0 (SendPayload.mk "general" "   " none)
        "m1" (StoreOps.mk true true)).1 =
      [MessageRec.mk "m1" "   " "general" "u1"] := by
  refine ⟨by decide, by simp, rfl⟩

/-- C2 amended: `send_message` performs no validation of content or channel
id before the store write.  Whenever the store accepts the write, a record
with exactly the client-supplied content (empty or whitespace-only included)
and exactly the client-supplied channel id (checked against no directory) is
appended to the store. -/
theorem send_no_prevalidation
    (st : SysState) (connId : Nat) (u : UserRec)
    (findUser : String → Option UserRec) (data : SendPayload)
    (nextId : String) (ops : StoreOps) (h : ops.createOk = true) :
    (send_message st connId u findUser data nextId ops).1 =
      st.store ++ [MessageRec.mk nextId data.content data.channelId u.id] := by
  obtain ⟨cOk, fOk⟩ := ops
  have h' : cOk = true := h
  subst h'
  cases fOk <;> simp [send_message]

/-- Witness for the amended C2 at concrete inputs. -/
theorem send_no_prevalidation_witness :
    (StoreOps.mk true true).createOk = true ∧
    (send_message init 0 u0 findUser0 payload0 "m1" (StoreOps.mk true true)).1 =
      init.store ++ [MessageRec.mk "m1" "hi" "general" "u1"] :=
  ⟨rfl, send_no_prevalidation init 0 u0 findUser0 payload0 "m1" (StoreOps.mk true true) rfl⟩

/-- C3 counterexample: the claimed per-channel ordering fails on the code.
`badTrace` is a possible interleaving of two `send_message` runs on the same
channel (each run performs persist, fetch, broadcast in program order, and
the handler takes no per-channel lock or queue): the persist of task 0
completes before the persist of task 1 begins, yet the broadcast of task 0
does not precede the broadcast of task 1. -/
theorem per_channel_order_counterexample :
    interleaving2 badTrace ∧
    occursBefore badTrace (0, .persist) (1, .persist) ∧
    ¬ occursBefore badTrace (0, .broadcast) (1, .broadcast) := by
  refine ⟨?_, ?_, ?_⟩
  · unfold interleaving2 proj sendProgram badTrace
    decide
  · unfold occursBefore badTrace
    decide
  · unfold occursBefore badTrace
    decide

/-- C3 amended: the code does not serialize the persist-then-broadcast
sequence per channel.  There is an interleaving of two sends on one channel
in which the persistence of send A completes strictly before the persistence
of send B begins, and yet every subscriber observes the broadcast of B
before the broadcast of A, because each handler awaits a store read between
its write and its emit. -/
theorem sends_can_reorder :
    ∃ t : List (Nat × SendStep), interleaving2 t ∧
      occursBefore t (0, .persist) (1, .persist) ∧
      occursBefore t (1, .broadcast) (0, .broadcast) := by
  refine ⟨badTrace, ?_, ?_, ?_⟩
  · unfold interleaving2 proj sendProgram badTrace
    decide
  · unfold occursBefore badTrace
    decide
  · unfold occursBefore badTrace
    decide

/-- C4: exactly-once fanout.  When both store operations succeed, the
handler emits the persisted message to each connection in the room for the
target channel exactly once — count 1 for every subscriber at fanout time,
count 0 for everyone else.  Instantiating the subscriber with the sending
connection id shows the sender receives its own message exactly once
whenever it is still subscribed (self-echo). -/
theorem exactly_once_fanout
    (st : SysState) (connId : Nat) (u : UserRec)
    (findUser : String → Option UserRec) (data : SendPayload)
    (nextId : String) (k : Nat) :
    ((send_message st connId u findUser data nextId (StoreOps.mk true true)).2).count
        (SEvent.receive_message k
          (MessageWithSender.mk
            (MessageRec.mk nextId data.content data.channelId u.id)
            (findUser u.id)))
      = if k ∈ subscribers st data.channelId then 1 else 0 :=
  broadcastTo_count st data.channelId
    (MessageWithSender.mk
      (MessageRec.mk nextId data.content data.channelId u.id)
      (findUser u.id)) k

/-- C5 counterexample: joining a channel id that exists in no Channel
Directory (here the empty directory) does not fail — the connection is added
to the room for that channel id and no event is emitted, contradicting the claimed
NotFoundError and non-membership. -/
theorem join_nonexistent_counterexample :
    "general" ∉ (∅ : Finset String) ∧
    ((0 : Nat), "general") ∈ (join_channel init 0 "general").1.subs ∧
    (join_channel init 0 "general").2 = [] :=
  ⟨by simp, Finset.mem_insert_self _ _, rfl⟩

/-- C5 amended: `join_channel` performs no existence check.  For every
channel id — present in the Channel Directory or not — the connection is
added to the room for that id and no error is raised. -/
theorem join_always_succeeds (st : SysState) (connId : Nat) (ch : String) :
    (connId, ch) ∈ (join_channel st connId ch).1.subs ∧
    (join_channel st connId ch).2 = [] :=
  ⟨Finset.mem_insert_self _ _, rfl⟩

/-- C6: `join_channel` is idempotent.  Joining the same channel twice leaves
the room set exactly as after the first join, the connection holds exactly
one subscription for that channel, and no error is raised. -/
theorem join_idempotent (st : SysState) (connId : Nat) (ch : String) :
    (join_channel (join_channel st connId ch).1 connId ch).1.subs =
      (join_channel st connId ch).1.subs ∧
    ((join_channel (join_channel st connId ch).1 connId ch).1.subs.filter
        (fun p => p = (connId, ch))).card = 1 ∧
    (join_channel (join_channel st connId ch).1 connId ch).2 = [] := by
  refine ⟨?_, ?_, rfl⟩
  · simp [join_channel, Finset.insert_idem]
  · simp [join_channel, Finset.insert_idem, Finset.filter_eq']

/-- C7: the authorization gate.  A connection whose credential is missing,
malformed or expired (the verifier rejects it) or resolves to no known user
is refused by the middleware, so no connect step exists for it; a connection
that is not open can take no `join_channel` and no `send_message` step; and
in every reachable state a connection that is not open has no subscriptions
and no attached identity. -/
theorem auth_gate (verify : String → Option TokenPayload)
    (findUser : String → Option UserRec) (c : Nat) (tok : Option String)
    (e : String) (hrej : authMiddleware tok verify findUser = .err e) :
    (∀ st st', ¬ Step verify findUser (.connect c tok) st st') ∧
    (∀ st st' ch, c ∉ st.openConns → ¬ Step verify findUser (.joinCh c ch) st st') ∧
    (∀ st st' data nextId ops, c ∉ st.openConns →
        ¬ Step verify findUser (.send c data nextId ops) st st') ∧
    (∀ st, Reachable verify findUser st → c ∉ st.openConns →
        (∀ ch, (c, ch) ∉ st.subs) ∧ (∀ u, (c, u) ∉ st.users)) := by
  refine ⟨?_, ?_, ?_, ?_⟩
  · intro st st' hstep
    cases hstep with
    | connect hok hfresh =>
      rw [hrej] at hok
      exact AuthResult.noConfusion hok
  · intro st st' ch hopen hstep
    cases hstep with
    | joinCh h => exact hopen h
  · intro st st' data nextId ops hopen hstep
    cases hstep with
    | send h hu => exact hopen h
  · intro st hreach hopen
    exact closed_conn_clean verify findUser st hreach c hopen

/-- Witness for C7 at concrete inputs: a missing token is rejected with the
authentication error and admits no connect step. -/
theorem auth_gate_witness :
    authMiddleware none verify0 findUser0 = .err "Authentication error" ∧
    ¬ Step verify0 findUser0 (Act.connect 5 none) init init :=
  ⟨rfl, (auth_gate verify0 findUser0 5 none "Authentication error" rfl).1 init init⟩

/-- C8: every record the handler adds to the store carries
`user_id = u.id`, the identity attached to the sending connection at
authentication time; and the handler output is unchanged under any
client-supplied sender field in the payload, because it never reads one. -/
theorem sender_from_connection
    (st : SysState) (connId : Nat) (u : UserRec)
    (findUser : String → Option UserRec) (data : SendPayload)
    (nextId : String) (ops : StoreOps) :
    (∀ m, m ∈ (send_message st connId u findUser data nextId ops).1 →
        m ∈ st.store ∨ m.user_id = u.id) ∧
    (∀ x, send_message st connId u findUser data nextId ops =
        send_message st connId u findUser
          (SendPayload.mk data.channelId data.content x) nextId ops) := by
  constructor
  · intro m hm
    obtain ⟨cOk, fOk⟩ := ops
    cases cOk <;> cases fOk <;> simp [send_message] at hm <;>
      first
        | exact Or.inl hm
        | rcases hm with hm | hm
          · exact Or.inl hm
          · subst hm
            exact Or.inr rfl
  · intro x
    rfl

/-- Witness for C8 at concrete inputs: the persisted record carries the id
of the authenticated user `u0`. -/
theorem sender_from_connection_witness :
    (MessageRec.mk "m1" "hi" "general" "u1") ∈ init.store ∨
      (MessageRec.mk "m1" "hi" "general" "u1").user_id = u0.id :=
  (sender_from_connection init 0 u0 findUser0 payload0 "m1" (StoreOps.mk true true)).1
    (MessageRec.mk "m1" "hi" "general" "u1") (by decide)

/-- C9: teardown cleanup.  In every reachable state, a connection that is
not open (in particular one whose transport has closed: the disconnect step
removes it from every room synchronously) belongs to no room and to the
fanout target set of no channel, so no broadcast attempts delivery to it. -/
theorem teardown_cleanup (verify : String → Option TokenPayload)
    (findUser : String → Option UserRec) (st : SysState)
    (h : Reachable verify findUser st) (c : Nat) (hc : c ∉ st.openConns) :
    (∀ ch, (c, ch) ∉ st.subs) ∧ (∀ ch, c ∉ subscribers st ch) := by
  obtain ⟨hsubs, -⟩ := closed_conn_clean verify findUser st h c hc
  refine ⟨hsubs, fun ch hmem => ?_⟩
  rcases Finset.mem_image.mp hmem with ⟨p, hp, hpc⟩
  rcases Finset.mem_filter.mp hp with ⟨hpmem, hpch⟩
  have hpeq : p = (c, ch) := Prod.ext_iff.mpr ⟨hpc, hpch⟩
  rw [hpeq] at hpmem
  exact hsubs ch hpmem

/-- Witness for C9 at concrete inputs. -/
theorem teardown_cleanup_witness :
    (∀ ch, ((0 : Nat), ch) ∉ init.subs) ∧ (∀ ch, (0 : Nat) ∉ subscribers init ch) :=
  teardown_cleanup verify0 findUser0 init Reachable.init 0 (by decide)

/-- C10: the broadcast depends on the second store read.  In the execution
where `Messages.create` succeeds and the follow-up `Messages.findByPk`
throws, the message record is durably in the store, yet the handler emits no
`receive_message` to anyone and the sending connection receives the `error`
event instead. -/
theorem persisted_but_not_broadcast
    (st : SysState) (connId : Nat) (u : UserRec)
    (findUser : String → Option UserRec) (data : SendPayload) (nextId : String) :
    (send_message st connId u findUser data nextId (StoreOps.mk true false)).1 =
      st.store ++ [MessageRec.mk nextId data.content data.channelId u.id] ∧
    (MessageRec.mk nextId data.content data.channelId u.id) ∈
      (send_message st connId u findUser data nextId (StoreOps.mk true false)).1 ∧
    (send_message st connId u findUser data nextId (StoreOps.mk true false)).2 =
      [SEvent.error connId "Message could notqv be sent"] ∧
    ∀ k m, SEvent.receive_message k m ∉
      (send_message st connId u findUser data nextId (StoreOps.mk true false)).2 := by
  refine ⟨?_, ?_, ?_, ?_⟩ <;> simp [send_message]
